import Mathlib

/-!
Verification of the delta-encoded sparse matrix overlay (RG_Matrix) of
RedisGraph, as implemented in src/src/graph/rg_matrix/rg_matrix.c.

The underlying GraphBLAS engine (GrB_Matrix and its primitives) is consumed
as an external capability; its primitives are modelled from the spec's
interface description (spec section 6) and the documented GraphBLAS
semantics, since their sources are not part of the excerpt.

A GrB_Matrix is modelled as its dimensions together with an association
list from coordinates to stored values.  A RG_Matrix composes the base
matrix M, the delta-plus overlay DP, the delta-minus mask DM, the dirty and
multi-edge flags, the transpose-maintenance flag, and an optional pointer
to the transposed mirror (itself a RG_Matrix; a NULL pointer is `none`).
The per-matrix mutex is not modelled: all operations here are sequential.
-/

/-- Result codes of the engine calls used by rg_matrix.c. -/
inductive GrB_Info : Type where
  | GrB_SUCCESS : GrB_Info
  | GrB_NO_VALUE : GrB_Info
deriving DecidableEq, Repr

/-- Modelled from the spec: an engine sparse matrix (spec section 6), given by
its dimensions and an association list of (row, col) coordinates to values. -/
structure GrB_Matrix (α : Type) : Type where
  nrows : Nat
  ncols : Nat
  entries : List ((Nat × Nat) × α)
deriving DecidableEq, Repr

/-- Modelled from the spec: the engine extractElement primitive; returns the
value stored at (i, j), if any. -/
def GrB_Matrix_extractElement {α : Type} (A : GrB_Matrix α) (i j : Nat) : Option α :=
  (A.entries.find? (fun e => e.1.1 == i && e.1.2 == j)).map Prod.snd

/-- Modelled from the spec: the engine countEntries primitive, the number of
stored entries. -/
def GrB_Matrix_nvals {α : Type} (A : GrB_Matrix α) : Nat :=
  A.entries.length

/-- Modelled from the spec: the engine resize primitive (spec section 6),
with the documented GraphBLAS semantics: the dimensions are set to the
request and entries outside the new bounds are deleted; any requested
dimensions are accepted. -/
def GrB_Matrix_resize {α : Type} (A : GrB_Matrix α) (nrows_new ncols_new : Nat) :
    GrB_Matrix α :=
  ⟨nrows_new, ncols_new,
    A.entries.filter (fun e => e.1.1 < nrows_new && e.1.2 < ncols_new)⟩

/-- Modelled from the spec: the engine assign primitive; stores value v at
(i, j), overwriting any previous entry at that coordinate. -/
def GrB_Matrix_setElement {α : Type} (A : GrB_Matrix α) (i j : Nat) (v : α) :
    GrB_Matrix α :=
  ⟨A.nrows, A.ncols,
    ((i, j), v) :: A.entries.filter (fun e => !(e.1.1 == i && e.1.2 == j))⟩

/-- Modelled from the spec: the engine remove primitive; deletes the entry at
(i, j) if present. -/
def GrB_Matrix_removeElement {α : Type} (A : GrB_Matrix α) (i j : Nat) :
    GrB_Matrix α :=
  ⟨A.nrows, A.ncols, A.entries.filter (fun e => !(e.1.1 == i && e.1.2 == j))⟩

/-- Width of the unsigned 64-bit GrB_Index type, 2 to the 64. -/
def uint64_W : Nat := 18446744073709551616

/-- The RG_Matrix structure of rg_matrix.h: base matrix M, delta-plus DP,
delta-minus DM (a boolean presence mask), the dirty and multi-edge flags,
the transpose-maintenance flag, and the transposed-mirror pointer
(NULL is `none`). -/
inductive RG_Matrix (α : Type) : Type where
  | mk (matrix : GrB_Matrix α) (delta_plus : GrB_Matrix α)
       (delta_minus : GrB_Matrix Bool) (dirty : Bool) (multi_edge : Bool)
       (maintain_transpose : Bool) (transposed : Option (RG_Matrix α)) :
       RG_Matrix α

/-- Accessor for the base matrix M (the RG_MATRIX_MATRIX macro). -/
def RG_Matrix.matrix {α : Type} : RG_Matrix α → GrB_Matrix α
  | .mk m _ _ _ _ _ _ => m

/-- Accessor for the delta-plus overlay (the RG_MATRIX_DELTA_PLUS macro). -/
def RG_Matrix.delta_plus {α : Type} : RG_Matrix α → GrB_Matrix α
  | .mk _ dp _ _ _ _ _ => dp

/-- Accessor for the delta-minus mask (the RG_MATRIX_DELTA_MINUS macro). -/
def RG_Matrix.delta_minus {α : Type} : RG_Matrix α → GrB_Matrix Bool
  | .mk _ _ dm _ _ _ _ => dm

/-- Accessor for the dirty flag. -/
def RG_Matrix.dirty {α : Type} : RG_Matrix α → Bool
  | .mk _ _ _ d _ _ _ => d

/-- Accessor for the multi-edge flag. -/
def RG_Matrix.multi_edge {α : Type} : RG_Matrix α → Bool
  | .mk _ _ _ _ me _ _ => me

/-- Accessor for the transpose-maintenance flag. -/
def RG_Matrix.maintain_transpose {α : Type} : RG_Matrix α → Bool
  | .mk _ _ _ _ _ mt _ => mt

/-- Accessor for the transposed-mirror pointer. -/
def RG_Matrix.transposed {α : Type} : RG_Matrix α → Option (RG_Matrix α)
  | .mk _ _ _ _ _ _ t => t

/-- RG_Matrix_setDirty (rg_matrix.c lines 11-17): sets the dirty flag. -/
def RG_Matrix_setDirty {α : Type} : RG_Matrix α → RG_Matrix α
  | .mk m dp dm _ me mt t => .mk m dp dm true me mt t

/-- RG_Matrix_isDirty (rg_matrix.c lines 45-51): returns the dirty flag. -/
def RG_Matrix_isDirty {α : Type} (C : RG_Matrix α) : Bool :=
  C.dirty

/-- RG_Matrix_getTranspose (rg_matrix.c lines 19-25): returns the transposed
pointer as stored, with no check of the maintenance flag (a NULL pointer,
returned when no mirror is linked, is `none`). -/
def RG_Matrix_getTranspose {α : Type} (C : RG_Matrix α) : Option (RG_Matrix α) :=
  C.transposed

/-- RG_Matrix_setMultiEdge (rg_matrix.c lines 71-79): when the matrix
maintains a transpose, first recurses into the mirror, then sets its own
multi-edge flag.  A maintained matrix whose mirror pointer is NULL would
dereference NULL in the recursive call; that state is unreachable and kept
as an own-flag update here. -/
def RG_Matrix_setMultiEdge {α : Type} : RG_Matrix α → Bool → RG_Matrix α
  | .mk m dp dm d _ true (some t), b =>
      .mk m dp dm d b true (some (RG_Matrix_setMultiEdge t b))
  | .mk m dp dm d _ true none, b => .mk m dp dm d b true none
  | .mk m dp dm d _ false t, b => .mk m dp dm d b false t

/-- RG_Matrix_getMultiEdge (rg_matrix.c lines 81-87): returns the multi-edge
flag. -/
def RG_Matrix_getMultiEdge {α : Type} (C : RG_Matrix α) : Bool :=
  C.multi_edge

/-- RG_Matrix_nvals (rg_matrix.c lines 89-121): reads the entry counts of M,
DP and DM from the engine and returns m_nvals + dp_nvals - dm_nvals,
computed in unsigned 64-bit (GrB_Index) arithmetic. -/
def RG_Matrix_nvals {α : Type} (A : RG_Matrix α) : Nat :=
  (GrB_Matrix_nvals A.matrix % uint64_W
    + GrB_Matrix_nvals A.delta_plus % uint64_W
    + (uint64_W - GrB_Matrix_nvals A.delta_minus % uint64_W)) % uint64_W

/-- RG_Matrix_resize (rg_matrix.c lines 123-151): when the matrix maintains a
transpose, first resizes the mirror with the same, unswapped dimensions
(nrows_new, ncols_new); then resizes M, DP and DM to the new dimensions.
There is no comparison against the current dimensions.  A maintained matrix
whose mirror pointer is NULL fails the assertion inside the recursive call,
modelled as `none`; otherwise the result is the final engine info code with
the updated matrix. -/
def RG_Matrix_resize {α : Type} :
    RG_Matrix α → Nat → Nat → Option (GrB_Info × RG_Matrix α)
  | .mk m dp dm d me true (some t), nrows_new, ncols_new =>
      match RG_Matrix_resize t nrows_new ncols_new with
      | none => none
      | some (_, t2) =>
          some (GrB_Info.GrB_SUCCESS,
            .mk (GrB_Matrix_resize m nrows_new ncols_new)
                (GrB_Matrix_resize dp nrows_new ncols_new)
                (GrB_Matrix_resize dm nrows_new ncols_new) d me true (some t2))
  | .mk _ _ _ _ _ true none, _, _ => none
  | .mk m dp dm d me false t, nrows_new, ncols_new =>
      some (GrB_Info.GrB_SUCCESS,
        .mk (GrB_Matrix_resize m nrows_new ncols_new)
            (GrB_Matrix_resize dp nrows_new ncols_new)
            (GrB_Matrix_resize dm nrows_new ncols_new) d me false t)

/-- RG_Matrix_extractElement_BOOL (rg_matrix.c lines 153-182): tries DP
first and returns its value on a hit; otherwise probes DM, and only when DM
has no entry falls through to M.  On a DM hit the function returns the info
of the DM probe (GrB_SUCCESS) with x holding the DM mask value. -/
def RG_Matrix_extractElement_BOOL (A : RG_Matrix Bool) (i j : Nat) :
    GrB_Info × Option Bool :=
  match GrB_Matrix_extractElement A.delta_plus i j with
  | some v => (GrB_Info.GrB_SUCCESS, some v)
  | none =>
    match GrB_Matrix_extractElement A.delta_minus i j with
    | some v => (GrB_Info.GrB_SUCCESS, some v)
    | none =>
      match GrB_Matrix_extractElement A.matrix i j with
      | some v => (GrB_Info.GrB_SUCCESS, some v)
      | none => (GrB_Info.GrB_NO_VALUE, none)

/-- RG_Matrix_extractElement_UINT64 (rg_matrix.c lines 184-213): the same
control flow as the BOOL variant over a uint64-valued matrix; a DM hit
returns GrB_SUCCESS with the boolean mask value typecast to uint64. -/
def RG_Matrix_extractElement_UINT64 (A : RG_Matrix Nat) (i j : Nat) :
    GrB_Info × Option Nat :=
  match GrB_Matrix_extractElement A.delta_plus i j with
  | some v => (GrB_Info.GrB_SUCCESS, some v)
  | none =>
    match GrB_Matrix_extractElement A.delta_minus i j with
    | some v => (GrB_Info.GrB_SUCCESS, some (if v then 1 else 0))
    | none =>
      match GrB_Matrix_extractElement A.matrix i j with
      | some v => (GrB_Info.GrB_SUCCESS, some v)
      | none => (GrB_Info.GrB_NO_VALUE, none)

/-- Modelled from the spec: Create (spec section 4.1); RG_Matrix_new is not
in the excerpt.  Allocates empty M, DP, DM of the given dimensions with both
flags clear; when maintainTranspose is requested it creates a sibling of
swapped dimensions with transpose maintenance disabled on the sibling and
links it as the transposed mirror, otherwise the mirror pointer is NULL. -/
def RG_Matrix_new (α : Type) (nrows ncols : Nat) (maintainTranspose : Bool) :
    RG_Matrix α :=
  if maintainTranspose then
    .mk ⟨nrows, ncols, []⟩ ⟨nrows, ncols, []⟩ ⟨nrows, ncols, []⟩ false false true
      (some (.mk ⟨ncols, nrows, []⟩ ⟨ncols, nrows, []⟩ ⟨ncols, nrows, []⟩
        false false false none))
  else
    .mk ⟨nrows, ncols, []⟩ ⟨nrows, ncols, []⟩ ⟨nrows, ncols, []⟩ false false false none

/-- Modelled from the spec: RemoveElement (spec section 4.1); the function is
not in the excerpt.  If (i,j) is present in DP it is removed from DP
directly; else if (i,j) is logically present via M (present in M and not
already pending-deleted) it is recorded in DM, without touching M; if absent
everywhere the call is a no-op.  Mutating branches mark dirty.  The
transpose mirroring of mutations is not modelled here: the claims exercise
it only on matrices without a mirror. -/
def RG_Matrix_removeElement_BOOL (A : RG_Matrix Bool) (i j : Nat) :
    RG_Matrix Bool :=
  match A with
  | .mk m dp dm d me mt t =>
    if (GrB_Matrix_extractElement dp i j).isSome then
      .mk m (GrB_Matrix_removeElement dp i j) dm true me mt t
    else if (GrB_Matrix_extractElement dm i j).isSome then
      .mk m dp dm d me mt t
    else if (GrB_Matrix_extractElement m i j).isSome then
      .mk m dp (GrB_Matrix_setElement dm i j true) true me mt t
    else
      .mk m dp dm d me mt t

/-- Modelled from the spec: the assert-and-abort failure style (spec
sections 4.3 and 9); the ASSERT macro of RG.h is not in the excerpt.  When
the asserted condition is false the operation aborts before the guarded
continuation runs, yielding `none`. -/
def RG_ASSERT {β : Type} (cond : Bool) (k : Option β) : Option β :=
  if cond then k else none

/-- Modelled from the spec: the engine bulk assign primitive
GxB_Matrix_subassign_UINT64 (spec section 6 treats assignment abstractly);
the scalar x is stored at every coordinate of the cross product of the index
lists I and J, and the call reports success.  The mask, accumulator and
descriptor refinements of the engine call are engine-internal and not
modelled. -/
def GxB_Matrix_subassign_UINT64 (C : GrB_Matrix Nat) (x : Nat)
    (I J : List Nat) : GrB_Info × GrB_Matrix Nat :=
  (GrB_Info.GrB_SUCCESS,
    I.foldl (fun acc i => J.foldl (fun acc2 j => GrB_Matrix_setElement acc2 i j x) acc) C)

/-- The write path of RG_Matrix_subassign_UINT64 (rg_matrix.c lines
229-255), the code after the leading assertion: when the matrix maintains a
transpose it first recurses into the mirror with the index lists swapped,
then delegates to the engine subassign on DP only, and marks dirty on
success.  M and DM are never touched.  A maintained matrix with a NULL
mirror pointer aborts in the recursive call (`none`). -/
def RG_Matrix_subassign_write :
    RG_Matrix Nat → Nat → List Nat → List Nat → Option (GrB_Info × RG_Matrix Nat)
  | .mk m dp dm d me true (some t), x, I, J =>
      match RG_Matrix_subassign_write t x J I with
      | none => none
      | some (_, t2) =>
          let r := GxB_Matrix_subassign_UINT64 dp x I J
          let C2 : RG_Matrix Nat := .mk m r.2 dm d me true (some t2)
          some (r.1, if r.1 = GrB_Info.GrB_SUCCESS then RG_Matrix_setDirty C2 else C2)
  | .mk _ _ _ _ _ true none, _, _, _ => none
  | .mk m dp dm d me false t, x, I, J =>
      let r := GxB_Matrix_subassign_UINT64 dp x I J
      let C2 : RG_Matrix Nat := .mk m r.2 dm d me false t
      some (r.1, if r.1 = GrB_Info.GrB_SUCCESS then RG_Matrix_setDirty C2 else C2)

/-- RG_Matrix_subassign_UINT64 (rg_matrix.c lines 215-255): the function
body opens with ASSERT(false) (line 228, under a TODO questioning the
function), so under the assert-and-abort semantics every call aborts before
the write path is reached. -/
def RG_Matrix_subassign_UINT64 (C : RG_Matrix Nat) (x : Nat)
    (I J : List Nat) : Option (GrB_Info × RG_Matrix Nat) :=
  RG_ASSERT false (RG_Matrix_subassign_write C x I J)

/-- Coordinates carrying an entry in an engine matrix. -/
def GrB_keys {α : Type} (A : GrB_Matrix α) : Finset (Nat × Nat) :=
  (A.entries.map Prod.fst).toFinset

/-- Formalisation of the logical content of a delta matrix as defined by the
spec (section 3): a coordinate is logically present when DP holds it, or
when M holds it and DM does not suppress it. -/
def logicalSupport {α : Type} (A : RG_Matrix α) : Finset (Nat × Nat) :=
  GrB_keys A.delta_plus ∪ (GrB_keys A.matrix \ GrB_keys A.delta_minus)

/-- Concrete 2 by 2 boolean delta matrix with one base entry at (0,0) and
empty overlays, used to exercise RemoveElement followed by ExtractElement. -/
def exC1 : RG_Matrix Bool :=
  .mk ⟨2, 2, [((0, 0), true)]⟩ ⟨2, 2, []⟩ ⟨2, 2, []⟩ false false false none

/-- Concrete delta matrix with two base entries, one pending insert and one
pending delete, satisfying the structural invariants of the spec. -/
def exC2 : RG_Matrix Bool :=
  .mk ⟨2, 2, [((0, 0), true), ((1, 1), true)]⟩ ⟨2, 2, [((0, 1), true)]⟩
    ⟨2, 2, [((1, 1), true)]⟩ false false false none

/-- Concrete 3 by 3 delta matrix with a base entry at (2,2), used to
exercise a shrinking resize. -/
def exC4 : RG_Matrix Bool :=
  .mk ⟨3, 3, [((2, 2), true)]⟩ ⟨3, 3, []⟩ ⟨3, 3, []⟩ false false false none

/-- Concrete clean (dirty = false) delta matrix used to exercise the dirty
flag across a resize. -/
def exC5 : RG_Matrix Bool := RG_Matrix_new Bool 1 1 false

/-- The matrix exC5 after RG_Matrix_resize to 2 by 2. -/
def exC5r : RG_Matrix Bool :=
  .mk ⟨2, 2, []⟩ ⟨2, 2, []⟩ ⟨2, 2, []⟩ false false false none

/-- Concrete 1 by 1 uint64 delta matrix with one base entry, used to show
that resize changes the base matrix M. -/
def exC7 : RG_Matrix Nat :=
  .mk ⟨1, 1, [((0, 0), 5)]⟩ ⟨1, 1, []⟩ ⟨1, 1, []⟩ false false false none

/-- Concrete empty 1 by 1 uint64 delta matrix fed to the subassign write
path. -/
def exC7b : RG_Matrix Nat :=
  .mk ⟨1, 1, []⟩ ⟨1, 1, []⟩ ⟨1, 1, []⟩ false false false none

/-- The matrix exC7b after the subassign write path stores 7 at (0,0) in DP
and marks dirty. -/
def exC7br : RG_Matrix Nat :=
  .mk ⟨1, 1, []⟩ ⟨1, 1, [((0, 0), 7)]⟩ ⟨1, 1, []⟩ true false false none

/-- Concrete 2 by 3 delta matrix created with transpose maintenance. -/
def exC9 : RG_Matrix Bool := RG_Matrix_new Bool 2 3 true

/-- The mirror linked inside exC9: swapped dimensions, no maintenance. -/
def exC9T : RG_Matrix Bool :=
  .mk ⟨3, 2, []⟩ ⟨3, 2, []⟩ ⟨3, 2, []⟩ false false false none

/-- Concrete delta matrix used to witness the nvals theorems. -/
def exC10 : RG_Matrix Bool :=
  .mk ⟨2, 2, [((0, 0), true)]⟩ ⟨2, 2, [((1, 0), true)]⟩
    ⟨2, 2, [((0, 0), true)]⟩ false false false none

/-- Modelled from the spec: the engine element-wise union primitive (spec
section 6): entries of B joined with the entries of A at coordinates B does
not hold. -/
def GrB_elementWiseUnion {α : Type} (A B : GrB_Matrix α) : GrB_Matrix α :=
  ⟨A.nrows, A.ncols,
    B.entries
      ++ A.entries.filter
          (fun e => (GrB_Matrix_extractElement B e.1.1 e.1.2).isNone)⟩

/-- Modelled from the spec: the engine masked exclusion primitive (spec
section 6): the entries of A whose coordinate the mask does not hold. -/
def GrB_maskedExclude {α : Type} (A : GrB_Matrix α) (maskB : GrB_Matrix Bool) :
    GrB_Matrix α :=
  ⟨A.nrows, A.ncols,
    A.entries.filter
      (fun e => (GrB_Matrix_extractElement maskB e.1.1 e.1.2).isNone)⟩

/-- Modelled from the spec: Sync (spec sections 4.1 and 4.3); the sync
engine is not in the excerpt.  The new base matrix is M with the DP entries
unioned in and the DM coordinates excluded; DP and DM are replaced by fresh
empty matrices of the same dimensions, and the dirty flag is cleared.  The
pairing of a primary sync with a mirror sync is the caller's duty (spec
section 4.2) and is not part of the single-matrix operation. -/
def RG_Matrix_sync {α : Type} : RG_Matrix α → RG_Matrix α
  | .mk m dp dm _ me mt t =>
      .mk (GrB_maskedExclude (GrB_elementWiseUnion m dp) dm)
        ⟨m.nrows, m.ncols, []⟩ ⟨m.nrows, m.ncols, []⟩ false me mt t

/-- Helper: the multi-edge flag of the result of RG_Matrix_setMultiEdge is
the requested value, for every matrix shape. -/
theorem multiEdge_of_setMultiEdge {α : Type} (C : RG_Matrix α) (b : Bool) :
    RG_Matrix_getMultiEdge (RG_Matrix_setMultiEdge C b) = b := by
  cases C with
  | mk m dp dm d me mt t =>
    cases mt <;> cases t <;>
      simp [RG_Matrix_setMultiEdge, RG_Matrix_getMultiEdge, RG_Matrix.multi_edge]

/-- Helper: the unsigned 64-bit evaluation of a + b - c performed by
RG_Matrix_nvals agrees with the exact natural-number difference whenever
c is at most a + b and a + b fits in 64 bits. -/
theorem uint64_no_wrap (a b c : Nat) (h1 : c ≤ a + b) (h2 : a + b < uint64_W) :
    (a % uint64_W + b % uint64_W + (uint64_W - c % uint64_W)) % uint64_W
      = a + b - c := by
  simp only [uint64_W] at *
  omega

/-- Helper: for an engine matrix whose coordinate list has no duplicates,
the key set has exactly nvals elements. -/
theorem GrB_keys_card {α : Type} (A : GrB_Matrix α)
    (h : (A.entries.map Prod.fst).Nodup) :
    (GrB_keys A).card = GrB_Matrix_nvals A := by
  simp [GrB_keys, GrB_Matrix_nvals, List.toFinset_card_of_nodup h]

/-- C1: the claim says a coordinate present in DM and absent from DP
extracts as absent.  The code instead returns the info of the DM probe:
on the concrete 2 by 2 matrix with base entry (0,0), RemoveElement(0,0)
records (0,0) in DM (DP stays empty), yet ExtractElement(0,0) returns
GrB_SUCCESS carrying the DM mask value true, i.e. the coordinate is
reported present. -/
theorem claim_C1_dm_entry_extracts_present :
    RG_Matrix_extractElement_BOOL (RG_Matrix_removeElement_BOOL exC1 0 0) 0 0
        = (GrB_Info.GrB_SUCCESS, some true)
      ∧ GrB_Matrix_extractElement
          (RG_Matrix.delta_minus (RG_Matrix_removeElement_BOOL exC1 0 0)) 0 0
          = some true
      ∧ GrB_Matrix_extractElement
          (RG_Matrix.delta_plus (RG_Matrix_removeElement_BOOL exC1 0 0)) 0 0
          = none := by
  decide

/-- C3: the claim says resizing a transpose-maintaining matrix resizes the
mirror to the swapped dimensions.  The code passes the dimensions unswapped:
resizing a 1 by 1 matrix (with its 1 by 1 mirror) to 2 rows and 3 columns
leaves the mirror at 2 rows and 3 columns, not 3 rows and 2 columns. -/
theorem claim_C3_mirror_resized_unswapped :
    ((RG_Matrix_resize (RG_Matrix_new Bool 1 1 true) 2 3).map
        (fun r => (RG_Matrix.transposed r.2).map
          (fun t => ((RG_Matrix.matrix t).nrows, (RG_Matrix.matrix t).ncols))))
        = some (some (2, 3))
      ∧ ((RG_Matrix_resize (RG_Matrix_new Bool 1 1 true) 2 3).map
          (fun r => ((RG_Matrix.matrix r.2).nrows, (RG_Matrix.matrix r.2).ncols)))
          = some (2, 3) := by
  decide

/-- C4 counterexample: resizing the 3 by 3 matrix exC4 to the strictly
smaller 2 by 2 returns GrB_SUCCESS, not a dimension error, and the matrix
is changed: all three inner matrices shrink and the base entry at (2,2) is
deleted. -/
theorem claim_C4_shrink_succeeds_cex :
    RG_Matrix_resize exC4 2 2
      = some (GrB_Info.GrB_SUCCESS,
          .mk ⟨2, 2, []⟩ ⟨2, 2, []⟩ ⟨2, 2, []⟩ false false false none) := by
  rfl

/-- C4 amended: RG_Matrix_resize performs no dimension comparison; for a
matrix as created by Create, with or without transpose maintenance, every
requested pair of dimensions, including strictly smaller ones, is accepted
with GrB_SUCCESS and M, DP and DM all take the requested dimensions. -/
theorem claim_C4_resize_accepts_any_dimensions (α : Type) (r c nr nc : Nat)
    (mt : Bool) :
    ∃ C2, RG_Matrix_resize (RG_Matrix_new α r c mt) nr nc
        = some (GrB_Info.GrB_SUCCESS, C2)
      ∧ (RG_Matrix.matrix C2).nrows = nr ∧ (RG_Matrix.matrix C2).ncols = nc
      ∧ (RG_Matrix.delta_plus C2).nrows = nr ∧ (RG_Matrix.delta_plus C2).ncols = nc
      ∧ (RG_Matrix.delta_minus C2).nrows = nr
      ∧ (RG_Matrix.delta_minus C2).ncols = nc := by
  cases mt <;>
    exact ⟨_, rfl, rfl, rfl, rfl, rfl, rfl, rfl⟩

/-- C5 counterexample: RG_Matrix_resize is a mutating operation (it rewrites
M, DP and DM), yet on a clean matrix the dirty flag is still false after the
resize, so not every mutating operation marks the matrix dirty. -/
theorem claim_C5_resize_leaves_clean_cex :
    (RG_Matrix_resize exC5 2 2).map (fun r => RG_Matrix_isDirty r.2)
      = some false := by
  decide

/-- C6: RG_Matrix_getTranspose on a matrix created without transpose
maintenance yields no matrix (the NULL mirror pointer, the NotMaintained
failure), and on a matrix created with maintenance yields the linked
mirror of swapped dimensions. -/
theorem claim_C6_getTranspose_maintained_only (α : Type) (r c : Nat) :
    RG_Matrix_getTranspose (RG_Matrix_new α r c false) = none
      ∧ RG_Matrix_getTranspose (RG_Matrix_new α r c true)
          = some (.mk ⟨c, r, []⟩ ⟨c, r, []⟩ ⟨c, r, []⟩ false false false none) := by
  constructor <;> rfl

/-- C7 counterexample: the claim says no operation other than Sync mutates
the base matrix M, but RG_Matrix_resize rewrites M: resizing exC7 changes
the base matrix (dimensions and entry set differ from the original M). -/
theorem claim_C7_resize_mutates_M_cex :
    (RG_Matrix_resize exC7 2 2).map (fun r => RG_Matrix.matrix r.2)
      ≠ some (RG_Matrix.matrix exC7) := by
  decide

/-- C8: RG_Matrix_subassign_UINT64 opens with ASSERT(false), so under the
assert-and-abort semantics every call aborts before the write path runs and
no assignment is performed: the result is `none` for all inputs. -/
theorem claim_C8_subassign_always_aborts (C : RG_Matrix Nat) (x : Nat)
    (I J : List Nat) :
    RG_Matrix_subassign_UINT64 C x I J = none := by
  rfl

/-- Helper: RG_Matrix_resize never changes the dirty flag, whichever branch
it takes. -/
theorem dirty_of_resize {α : Type} (C : RG_Matrix α) (nr nc : Nat)
    (i : GrB_Info) (C2 : RG_Matrix α)
    (h : RG_Matrix_resize C nr nc = some (i, C2)) :
    RG_Matrix.dirty C2 = RG_Matrix.dirty C := by
  cases C with
  | mk m dp dm d me mt t =>
    cases mt with
    | false =>
      simp [RG_Matrix_resize] at h
      rw [← h.2]
      simp [RG_Matrix.dirty]
    | true =>
      cases t with
      | none => simp [RG_Matrix_resize] at h
      | some t0 =>
        cases hrec : RG_Matrix_resize t0 nr nc with
        | none => simp [RG_Matrix_resize, hrec] at h
        | some p =>
          simp [RG_Matrix_resize, hrec] at h
          rw [← h.2]
          simp [RG_Matrix.dirty]

/-- C2: for every delta matrix satisfying the structural invariants of the
spec (duplicate-free engine matrices, DM a subset of the base coordinates,
DP disjoint from the base) whose counts fit in 64 bits, RG_Matrix_nvals
returns exactly count(M) + count(DP) - count(DM), and this is the number of
logically present coordinates. -/
theorem claim_C2_nvals_counts_logical {α : Type} (A : RG_Matrix α)
    (hm : ((RG_Matrix.matrix A).entries.map Prod.fst).Nodup)
    (hdp : ((RG_Matrix.delta_plus A).entries.map Prod.fst).Nodup)
    (hdm : ((RG_Matrix.delta_minus A).entries.map Prod.fst).Nodup)
    (hsub : GrB_keys (RG_Matrix.delta_minus A) ⊆ GrB_keys (RG_Matrix.matrix A))
    (hdisj : Disjoint (GrB_keys (RG_Matrix.delta_plus A))
      (GrB_keys (RG_Matrix.matrix A)))
    (hbound : GrB_Matrix_nvals (RG_Matrix.matrix A)
        + GrB_Matrix_nvals (RG_Matrix.delta_plus A) < uint64_W) :
    RG_Matrix_nvals A
        = GrB_Matrix_nvals (RG_Matrix.matrix A)
            + GrB_Matrix_nvals (RG_Matrix.delta_plus A)
            - GrB_Matrix_nvals (RG_Matrix.delta_minus A)
      ∧ RG_Matrix_nvals A = (logicalSupport A).card := by
  have hcm := GrB_keys_card A.matrix hm
  have hcdp := GrB_keys_card A.delta_plus hdp
  have hcdm := GrB_keys_card A.delta_minus hdm
  have hdmle : GrB_Matrix_nvals A.delta_minus ≤ GrB_Matrix_nvals A.matrix := by
    rw [← hcm, ← hcdm]
    exact Finset.card_le_card hsub
  have h1 : RG_Matrix_nvals A
      = GrB_Matrix_nvals A.matrix + GrB_Matrix_nvals A.delta_plus
          - GrB_Matrix_nvals A.delta_minus := by
    unfold RG_Matrix_nvals
    exact uint64_no_wrap _ _ _ (le_trans hdmle (Nat.le_add_right _ _)) hbound
  refine ⟨h1, ?_⟩
  have hdisj2 : Disjoint (GrB_keys A.delta_plus)
      (GrB_keys A.matrix \ GrB_keys A.delta_minus) :=
    hdisj.mono_right Finset.sdiff_subset
  have hcard : (logicalSupport A).card
      = (GrB_keys A.delta_plus).card
        + ((GrB_keys A.matrix).card - (GrB_keys A.delta_minus).card) := by
    rw [logicalSupport, Finset.card_union_of_disjoint hdisj2, Finset.card_sdiff hsub]
  rw [h1, hcard, hcm, hcdp, hcdm]
  omega

/-- Witness for C2 at the concrete matrix exC2: two base entries, one
pending insert, one pending delete give nvals 2, the logical count. -/
theorem claim_C2_nvals_counts_logical_witness :
    RG_Matrix_nvals exC2
        = GrB_Matrix_nvals (RG_Matrix.matrix exC2)
            + GrB_Matrix_nvals (RG_Matrix.delta_plus exC2)
            - GrB_Matrix_nvals (RG_Matrix.delta_minus exC2)
      ∧ RG_Matrix_nvals exC2 = (logicalSupport exC2).card :=
  claim_C2_nvals_counts_logical exC2 (by decide) (by decide) (by decide)
    (by decide) (by decide) (by decide)

/-- C5 amended: RG_Matrix_isDirty reads the dirty flag; the mutators mark it
via RG_Matrix_setDirty (the subassign write path and the delete path set it),
and Sync is the only operation that clears it: Sync resets the flag while
setMultiEdge and resize leave it unchanged and removeElement and the
subassign write path never reset it.  The one correction to the claim is
that RG_Matrix_resize, although it rewrites M, DP and DM, does not set the
dirty flag. -/
theorem claim_C5_dirty_flag_transitions {α : Type} (C : RG_Matrix α)
    (nr nc : Nat) (i : GrB_Info) (C2 : RG_Matrix α)
    (h : RG_Matrix_resize C nr nc = some (i, C2)) :
    RG_Matrix_isDirty C2 = RG_Matrix_isDirty C
      ∧ RG_Matrix_isDirty (RG_Matrix_setDirty C) = true
      ∧ RG_Matrix_isDirty (RG_Matrix_sync C) = false
      ∧ (∀ b, RG_Matrix_isDirty (RG_Matrix_setMultiEdge C b) = RG_Matrix_isDirty C)
      ∧ (∀ (B : RG_Matrix Bool) (x y : Nat), RG_Matrix_isDirty B = true →
          RG_Matrix_isDirty (RG_Matrix_removeElement_BOOL B x y) = true)
      ∧ (∀ (D D2 : RG_Matrix Nat) (x : Nat) (I J : List Nat) (i2 : GrB_Info),
          RG_Matrix_subassign_write D x I J = some (i2, D2) →
          RG_Matrix_isDirty D2 = true) := by
  refine ⟨?_, ?_, ?_, ?_, ?_, ?_⟩
  · simp only [RG_Matrix_isDirty]
    exact dirty_of_resize C nr nc i C2 h
  · cases C with
    | mk m dp dm d me mt t =>
      simp [RG_Matrix_setDirty, RG_Matrix_isDirty, RG_Matrix.dirty]
  · cases C with
    | mk m dp dm d me mt t =>
      simp [RG_Matrix_sync, RG_Matrix_isDirty, RG_Matrix.dirty]
  · intro b
    cases C with
    | mk m dp dm d me mt t =>
      cases mt <;> cases t <;>
        simp [RG_Matrix_setMultiEdge, RG_Matrix_isDirty, RG_Matrix.dirty]
  · intro B x y hB
    cases B with
    | mk m dp dm d me mt t =>
      simp only [RG_Matrix_isDirty, RG_Matrix.dirty] at hB
      simp only [RG_Matrix_removeElement_BOOL]
      split_ifs <;> simp [RG_Matrix_isDirty, RG_Matrix.dirty, hB]
  · intro D D2 x I J i2 hD
    cases D with
    | mk m dp dm d me mt t =>
      cases mt with
      | false =>
        simp [RG_Matrix_subassign_write, GxB_Matrix_subassign_UINT64,
          RG_Matrix_setDirty] at hD
        rw [← hD.2]
        simp [RG_Matrix_isDirty, RG_Matrix.dirty]
      | true =>
        cases t with
        | none => simp [RG_Matrix_subassign_write] at hD
        | some t0 =>
          cases hrec : RG_Matrix_subassign_write t0 x J I with
          | none => simp [RG_Matrix_subassign_write, hrec] at hD
          | some p =>
            simp [RG_Matrix_subassign_write, hrec, GxB_Matrix_subassign_UINT64,
              RG_Matrix_setDirty] at hD
            rw [← hD.2]
            simp [RG_Matrix_isDirty, RG_Matrix.dirty]

/-- Witness for C5 at the clean matrix exC5 and its resize result exC5r. -/
theorem claim_C5_dirty_flag_transitions_witness :
    RG_Matrix_isDirty exC5r = RG_Matrix_isDirty exC5
      ∧ RG_Matrix_isDirty (RG_Matrix_setDirty exC5) = true
      ∧ RG_Matrix_isDirty (RG_Matrix_sync exC5) = false
      ∧ (∀ b, RG_Matrix_isDirty (RG_Matrix_setMultiEdge exC5 b)
          = RG_Matrix_isDirty exC5)
      ∧ (∀ (B : RG_Matrix Bool) (x y : Nat), RG_Matrix_isDirty B = true →
          RG_Matrix_isDirty (RG_Matrix_removeElement_BOOL B x y) = true)
      ∧ (∀ (D D2 : RG_Matrix Nat) (x : Nat) (I J : List Nat) (i2 : GrB_Info),
          RG_Matrix_subassign_write D x I J = some (i2, D2) →
          RG_Matrix_isDirty D2 = true) :=
  claim_C5_dirty_flag_transitions exC5 2 2 GrB_Info.GrB_SUCCESS exC5r (by rfl)

/-- C7 amended: among the element-writing operations, the subassign write
path touches only the delta-plus overlay: whenever it completes it leaves
the base matrix M and the delta-minus mask DM of the primary unchanged.
Resize, by contrast, does rewrite M (see the counterexample), so Sync and
Resize are the operations that may change M. -/
theorem claim_C7_subassign_writes_only_dp (C : RG_Matrix Nat) (x : Nat)
    (I J : List Nat) (i : GrB_Info) (C2 : RG_Matrix Nat)
    (h : RG_Matrix_subassign_write C x I J = some (i, C2)) :
    RG_Matrix.matrix C2 = RG_Matrix.matrix C
      ∧ RG_Matrix.delta_minus C2 = RG_Matrix.delta_minus C := by
  cases C with
  | mk m dp dm d me mt t =>
    cases mt with
    | false =>
      simp [RG_Matrix_subassign_write, GxB_Matrix_subassign_UINT64,
        RG_Matrix_setDirty] at h
      rw [← h.2]
      simp [RG_Matrix.matrix, RG_Matrix.delta_minus]
    | true =>
      cases t with
      | none => simp [RG_Matrix_subassign_write] at h
      | some t0 =>
        cases hrec : RG_Matrix_subassign_write t0 x J I with
        | none => simp [RG_Matrix_subassign_write, hrec] at h
        | some p =>
          simp [RG_Matrix_subassign_write, hrec, GxB_Matrix_subassign_UINT64,
            RG_Matrix_setDirty] at h
          rw [← h.2]
          simp [RG_Matrix.matrix, RG_Matrix.delta_minus]

/-- Witness for C7: running the write path on the empty matrix exC7b stores
7 at (0,0) in DP and marks dirty, leaving M and DM untouched. -/
theorem claim_C7_subassign_writes_only_dp_witness :
    RG_Matrix.matrix exC7br = RG_Matrix.matrix exC7b
      ∧ RG_Matrix.delta_minus exC7br = RG_Matrix.delta_minus exC7b :=
  claim_C7_subassign_writes_only_dp exC7b 7 [0] [0] GrB_Info.GrB_SUCCESS exC7br
    (by rfl)

/-- C9: for a delta matrix that maintains a transpose with a linked mirror,
RG_Matrix_setMultiEdge sets the multi-edge flag of both the primary and the
mirror to the requested value, so RG_Matrix_getMultiEdge agrees on both. -/
theorem claim_C9_setMultiEdge_syncs_mirror {α : Type} (C T : RG_Matrix α)
    (b : Bool)
    (hmt : RG_Matrix.maintain_transpose C = true)
    (ht : RG_Matrix.transposed C = some T) :
    RG_Matrix_getMultiEdge (RG_Matrix_setMultiEdge C b) = b
      ∧ RG_Matrix.transposed (RG_Matrix_setMultiEdge C b)
          = some (RG_Matrix_setMultiEdge T b)
      ∧ RG_Matrix_getMultiEdge (RG_Matrix_setMultiEdge T b) = b := by
  cases C with
  | mk m dp dm d me mt t =>
    simp [RG_Matrix.maintain_transpose] at hmt
    simp [RG_Matrix.transposed] at ht
    subst hmt
    subst ht
    exact ⟨multiEdge_of_setMultiEdge _ b,
      by simp [RG_Matrix_setMultiEdge, RG_Matrix.transposed],
      multiEdge_of_setMultiEdge T b⟩

/-- Witness for C9 at the maintained matrix exC9 and its mirror exC9T. -/
theorem claim_C9_setMultiEdge_syncs_mirror_witness :
    RG_Matrix_getMultiEdge (RG_Matrix_setMultiEdge exC9 true) = true
      ∧ RG_Matrix.transposed (RG_Matrix_setMultiEdge exC9 true)
          = some (RG_Matrix_setMultiEdge exC9T true)
      ∧ RG_Matrix_getMultiEdge (RG_Matrix_setMultiEdge exC9T true) = true :=
  claim_C9_setMultiEdge_syncs_mirror exC9 exC9T true (by rfl) (by rfl)

/-- C10: RG_Matrix_nvals computes count(M) + count(DP) - count(DM) in
unsigned 64-bit arithmetic; when count(DM) is at most count(M) + count(DP)
and the sum fits in 64 bits, the subtraction does not wrap and the result
is the exact natural-number difference. -/
theorem claim_C10_nvals_no_wraparound {α : Type} (A : RG_Matrix α)
    (h1 : GrB_Matrix_nvals (RG_Matrix.delta_minus A)
        ≤ GrB_Matrix_nvals (RG_Matrix.matrix A)
            + GrB_Matrix_nvals (RG_Matrix.delta_plus A))
    (h2 : GrB_Matrix_nvals (RG_Matrix.matrix A)
        + GrB_Matrix_nvals (RG_Matrix.delta_plus A) < uint64_W) :
    RG_Matrix_nvals A
      = GrB_Matrix_nvals (RG_Matrix.matrix A)
          + GrB_Matrix_nvals (RG_Matrix.delta_plus A)
          - GrB_Matrix_nvals (RG_Matrix.delta_minus A) := by
  unfold RG_Matrix_nvals
  exact uint64_no_wrap _ _ _ h1 h2

/-- Witness for C10 at the concrete matrix exC10: 1 + 1 - 1 entries. -/
theorem claim_C10_nvals_no_wraparound_witness :
    RG_Matrix_nvals exC10
      = GrB_Matrix_nvals (RG_Matrix.matrix exC10)
          + GrB_Matrix_nvals (RG_Matrix.delta_plus exC10)
          - GrB_Matrix_nvals (RG_Matrix.delta_minus exC10) :=
  claim_C10_nvals_no_wraparound exC10 (by decide) (by decide)
